import Mathlib

/-!
Shallow embedding of the CSM library (src/CSM.h): a bump-pointer arena
allocator (`Arena`, `create_arena`, `arena_alloc`, `arena_realloc`) and an
owning registry of tracked allocations (`Ptr_stack`, `create_stack`,
`stack_new_ptr`, `dyn_ptr_alloc`, `dyn_ptr_insert_deallocator`,
`stack_free`).

Modelling conventions:
- `size_t` values are carried as `Nat`, and every arithmetic operation the
  source performs on `size_t` operands (the capacity-guard sum in
  `arena_alloc`, the two sums in `arena_realloc`, the doubling in
  `stack_new_ptr`) is taken modulo `2^64` (`size_t_mod`), exactly as the
  64-bit machine computes it. Counters the source only ever increments
  while below an allocated-array bound (`length`) stay plain `Nat`: no C
  execution can wrap them.
- Pointers into the arena are byte offsets (`Option Nat`, `none` = NULL).
- The heap buffer backing an arena is `block : List Nat`, one `Nat` per byte;
  `malloc`ed memory is uninitialized, modelled as zero bytes (no claim reads
  a byte before writing it).
- C functions that mutate through pointers become state-passing functions.
- `malloc`/`realloc` can fail nondeterministically; fallible heap growth
  takes an explicit `realloc_ok : Bool` oracle.
- Out-of-bounds stores/loads and null dereferences are undefined behavior in
  C; the embedding makes them explicit `UB` errors (`Except UB _`).
-/

/-- Undefined behavior outcomes that the C source can reach. -/
inductive UB where
  | oobWrite
  | oobRead
  | nullDeref
  | srcOverrun
deriving DecidableEq

/-- C `Arena` (CSM.h lines 30-34): `capacity`, `actual_size`, and the raw
`block`. The model keeps the actual heap buffer as a byte list, so the
buffer's real length (`block.length`) and the `capacity` field can disagree,
exactly as in the C source after `arena_realloc`. -/
structure Arena where
  capacity : Nat
  actual_size : Nat
  block : List Nat
deriving DecidableEq

/-- C `Arena_ptr` (lines 43-46): a size plus a pointer, here an offset into
the owning arena's block (`none` models NULL). -/
structure Arena_ptr where
  size : Nat
  block : Option Nat
deriving DecidableEq

/-- C `create_arena` (lines 181-198), success path: fresh buffer of
`capacity` bytes, nothing used yet. -/
def create_arena (capacity : Nat) : Arena :=
  { capacity := capacity, actual_size := 0, block := List.replicate capacity 0 }

/-- `SIZE_MAX + 1` on an LP64 target: `size_t` arithmetic wraps modulo this. -/
def size_t_mod : Nat := 2 ^ 64

/-- Body of C `arena_alloc` (lines 200-211) for a non-null arena: reject
`size == 0`, reject `actual_size + size > capacity`, otherwise hand out the
offset `actual_size` and advance it. The guard's sum is a `size_t`
addition, so it wraps modulo `2^64` - an over-huge `size` can wrap the sum
below `capacity` and slip past the check, exactly as in the source. -/
def arena_allocA (a : Arena) (size : Nat) : Arena_ptr × Arena :=
  if size = 0 then ({ size := 0, block := none }, a)
  else if (a.actual_size + size) % size_t_mod > a.capacity then
    ({ size := 0, block := none }, a)
  else ({ size := size, block := some a.actual_size },
        { a with actual_size := (a.actual_size + size) % size_t_mod })

/-- C `arena_alloc` (lines 200-211) including its `arena == NULL` guard. -/
def arena_alloc : Option Arena → Nat → Arena_ptr × Option Arena
  | none, _ => ({ size := 0, block := none }, none)
  | some a, size =>
    let r := arena_allocA a size
    (r.1, some r.2)

/-- C `realloc(block, newLen)` on a live buffer: keeps the first
`min newLen block.length` bytes, any fresh tail is uninitialized (zeros). -/
def reallocBlock (block : List Nat) (newLen : Nat) : List Nat :=
  block.take newLen ++ List.replicate (newLen - block.length) 0

/-- C `arena_realloc` (lines 213-220). Note the source reallocates the
buffer to `actual_size + extra_capacity` bytes while adding
`extra_capacity` to the `capacity` field; both sums are `size_t` additions
and wrap modulo `2^64`. On realloc failure it returns false with the arena
untouched. -/
def arena_realloc (realloc_ok : Bool) (a : Arena) (extra_capacity : Nat) :
    Bool × Arena :=
  if realloc_ok then
    (true, { capacity := (a.capacity + extra_capacity) % size_t_mod,
             actual_size := a.actual_size,
             block := reallocBlock a.block
               ((a.actual_size + extra_capacity) % size_t_mod) })
  else (false, a)

/-- Destructor capability stored in a `Dyn_ptr`. `null` is the C
`null_deallocator` (line 304, a no-op); `log tag` models a caller-supplied
destructor that appends `tag` to an external log, as in the spec's
destructor-ordering test. -/
inductive Dealloc where
  | null
  | log (tag : Nat)
deriving DecidableEq

/-- C `Dyn_ptr` (lines 91-95): payload pointer (arena offset), payload
size, and the destructor function pointer. -/
structure Dyn_ptr where
  ptr : Option Nat
  size : Nat
  dealloc : Dealloc
deriving DecidableEq

/-- C `Ptr_stack` (lines 106-111). `ptr_list` is the separately `malloc`ed
entry array; its model length is the number of slots actually allocated
(the C source allocates `capacity` slots at creation and never resizes it). -/
structure Ptr_stack where
  arena : Arena
  ptr_list : List Dyn_ptr
  length : Nat
  capacity : Nat
deriving DecidableEq

/-- C `create_stack` (lines 227-251), success path: `capacity` entry slots
(uninitialized memory, modelled by default records that are never read
before being set) and an arena of `capacity` bytes. -/
def create_stack (capacity : Nat) : Ptr_stack :=
  { arena := create_arena capacity,
    ptr_list := List.replicate capacity { ptr := none, size := 0, dealloc := .null },
    length := 0,
    capacity := capacity }

/-- `sizeof(Dyn_ptr)` on an LP64 target: three 8-byte fields. Only its
positivity matters to the claims; the concrete value fixes arena layouts. -/
def sizeof_Dyn_ptr : Nat := 24

/-- C `memcpy(&block[off], bytes, bytes.length)`: in-bounds stores update
the buffer, a store past the end of the heap block is UB (`none`). -/
def writeBytes (block : List Nat) (off : Nat) (bytes : List Nat) :
    Option (List Nat) :=
  if off + bytes.length ≤ block.length then
    some (block.take off ++ bytes ++ block.drop (off + bytes.length))
  else none

/-- C `dyn_ptr_alloc` (lines 282-298). The `stack` and `dyn_ptr` arguments
are passed by value here (the embedding's callers always pass non-null
pointers, so the C `stack == NULL || dyn_ptr == NULL` guard is vacuous);
`data == NULL` is `none`, and `size == 0` is rejected the same way the C
does: by returning with nothing changed. On a successful payload
allocation the bytes are copied into the arena block and the record's
`ptr`/`size` fields are set. `memcpy` reading past the end of `data` or
writing past the end of the heap block is UB. -/
def dyn_ptr_alloc (arena : Arena) (dyn_ptr : Dyn_ptr)
    (data : Option (List Nat)) (size : Nat) : Except UB (Arena × Dyn_ptr) :=
  match data with
  | none => .ok (arena, dyn_ptr)
  | some bytes =>
    if size = 0 then .ok (arena, dyn_ptr)
    else
      let r := arena_allocA arena size
      match r.1.block with
      | none => .ok (arena, dyn_ptr)
      | some off =>
        if size ≤ bytes.length then
          match writeBytes r.2.block off (bytes.take size) with
          | none => .error .oobWrite
          | some blk =>
            .ok ({ r.2 with block := blk },
                 { dyn_ptr with ptr := some off, size := size })
        else .error .srcOverrun

/-- C `dyn_ptr_insert_deallocator` (lines 300-302): an unconditional store
through `dyn_ptr`. There is no null check in the source, so a null argument
is a null dereference (UB), modelled as an error. -/
def dyn_ptr_insert_deallocator (dyn_ptr : Option Dyn_ptr) (dealloc : Dealloc) :
    Except UB Dyn_ptr :=
  match dyn_ptr with
  | none => .error .nullDeref
  | some d => .ok { d with dealloc := dealloc }

/-- C `stack_new_ptr` (lines 253-280) after the growth check: carve a
`Dyn_ptr` record from the arena, store it at `ptr_list[length]` (UB when
`length` is not below the allocated slot count), bump `length`, set the
record's `size`/`dealloc` (lines 274-275; the record's `ptr` was set to
NULL at line 268, its other fields are garbage until these stores, and
nothing reads them in between, so the record is built in one step here; the
byte image of the record inside the arena block is never read back and is
not modelled byte-wise), then call `dyn_ptr_alloc` for the payload. A NULL
`ptr` afterwards means the payload step failed and NULL is returned - with
`length` already incremented, exactly as in the source. -/
def stack_new_ptr_rest (stack : Ptr_stack) (data : Option (List Nat))
    (dataSize : Nat) : Except UB (Option Nat × Ptr_stack) :=
  let r := arena_allocA stack.arena sizeof_Dyn_ptr
  match r.1.block with
  | none => .ok (none, stack)
  | some _ =>
    if stack.length < stack.ptr_list.length then
      let record : Dyn_ptr := { ptr := none, size := dataSize, dealloc := .null }
      let idx := stack.length
      let stack1 : Ptr_stack :=
        { stack with arena := r.2,
                     ptr_list := stack.ptr_list.set idx record,
                     length := stack.length + 1 }
      match dyn_ptr_alloc stack1.arena record data dataSize with
      | .error e => .error e
      | .ok (arena2, record1) =>
        let stack2 : Ptr_stack :=
          { stack1 with arena := arena2,
                        ptr_list := stack1.ptr_list.set idx record1 }
        if record1.ptr = none then .ok (none, stack2)
        else .ok (some idx, stack2)
    else .error .oobWrite

/-- C `stack_new_ptr` (lines 253-280). `growth = dataSize * 2` - a
`size_t` product, wrapping modulo `2^64` for `dataSize >= 2^63` - raised
to the 1 KiB minimum; when `length >= capacity` the arena (and only the
arena - never `ptr_list`) is grown, a failed `realloc` aborting the call
with the registry unchanged. The returned `Option Nat` is the C return
value: `some idx` is a pointer to `ptr_list[idx]`, `none` is NULL. -/
def stack_new_ptr (realloc_ok : Bool) (stack : Ptr_stack)
    (data : Option (List Nat)) (dataSize : Nat) :
    Except UB (Option Nat × Ptr_stack) :=
  let growth := if dataSize * 2 % size_t_mod < 1024 then 1024
                else dataSize * 2 % size_t_mod
  if stack.capacity ≤ stack.length then
    match arena_realloc realloc_ok stack.arena growth with
    | (false, _) => .ok (none, stack)
    | (true, arena1) => stack_new_ptr_rest { stack with arena := arena1 } data dataSize
  else stack_new_ptr_rest stack data dataSize

/-- Observable events of C `stack_free` (lines 316-324): one destructor
invocation per live entry (recording the entry value the destructor
receives), then the three releases. -/
inductive TEvent where
  | dcall (d : Dyn_ptr)
  | free_ptr_list
  | free_arena
  | free_stack
deriving DecidableEq

/-- The destructor-call events of the loop `for (i = 0; i < len; i++)
ptr_list[i].dealloc(&ptr_list[i])`, in loop order; reading past the end of
the allocated entry array is UB. -/
def dcalls (pl : List Dyn_ptr) : Nat → Except UB (List TEvent)
  | 0 => .ok []
  | n + 1 =>
    match dcalls pl n, pl[n]? with
    | .ok evs, some d => .ok (evs ++ [TEvent.dcall d])
    | .ok _, none => .error .oobRead
    | .error e, _ => .error e

/-- C `stack_free` (lines 316-324): run every live entry's destructor in
index order, then `free(ptr_list)`, `arena_free(arena)`, `free(stack)`. -/
def stack_free (s : Ptr_stack) : Except UB (List TEvent) :=
  match dcalls s.ptr_list s.length with
  | .ok evs => .ok (evs ++ [TEvent.free_ptr_list, TEvent.free_arena, TEvent.free_stack])
  | .error e => .error e

/-- The external log produced by a trace: each `log tag` destructor appends
its tag, the `null_deallocator` does nothing. -/
def trace_log (evs : List TEvent) : List Nat :=
  evs.filterMap fun e =>
    match e with
    | TEvent.dcall d =>
      match d.dealloc with
      | Dealloc.log t => some t
      | Dealloc.null => none
    | _ => none

/-- Caller-side `dyn_ptr_insert_deallocator(&s->ptr_list[i], f)` for an
in-range entry reference obtained from `stack_new_ptr`. -/
def stack_attach (s : Ptr_stack) (i : Nat) (f : Dealloc) : Ptr_stack :=
  match s.ptr_list[i]? with
  | some d => { s with ptr_list := s.ptr_list.set i { d with dealloc := f } }
  | none => s

/-- Read back a registered entry: its record from `ptr_list[i]` and the
`size` bytes of arena storage its `ptr` points at (`get_dyn_ptr_data`
resolved offset-relatively against the current block). -/
def entry_bytes (s : Ptr_stack) (i : Nat) : Option (List Nat) :=
  match s.ptr_list[i]? with
  | some d =>
    match d.ptr with
    | some off => some ((s.arena.block.drop off).take d.size)
    | none => none
  | none => none

/-- Run a sequence of `arena_alloc` calls left to right, collecting the
returned slices and threading the arena state. -/
def alloc_results (a : Arena) : List Nat → List Arena_ptr × Arena
  | [] => ([], a)
  | sz :: rest =>
    let r := arena_allocA a sz
    let rr := alloc_results r.2 rest
    (r.1 :: rr.1, rr.2)

/-- The spec's destructor-ordering scenario: a registry of initial capacity
100, three 1-byte registrations, each returned entry given a destructor
that logs its registration index. -/
def demo_stack : Option Ptr_stack :=
  match stack_new_ptr true (create_stack 100) (some [10]) 1 with
  | .ok (some i0, s1) =>
    match stack_new_ptr true (stack_attach s1 i0 (.log 0)) (some [11]) 1 with
    | .ok (some i1, s2) =>
      match stack_new_ptr true (stack_attach s2 i1 (.log 1)) (some [12]) 1 with
      | .ok (some i2, s3) => some (stack_attach s3 i2 (.log 2))
      | _ => none
    | _ => none
  | _ => none

/-- The external log left behind by tearing down `demo_stack`. -/
def demo_log : Option (Except UB (List Nat)) :=
  demo_stack.map fun s => (stack_free s).map trace_log

/-- Outcome of `stack_new_ptr(stack, NULL, 5)` on a fresh registry of
capacity 100: the C return value, the resulting `length`, and the entry
left at index 0. -/
def null_register_result : Option Nat × Nat × Option Dyn_ptr :=
  match stack_new_ptr true (create_stack 100) none 5 with
  | .ok (r, s1) => (r, s1.length, s1.ptr_list[0]?)
  | .error _ => (some 0, 0, none)

/-- Registry state after registering the 2-byte payload `[7, 8]` into a
fresh registry of capacity 30 (used to instantiate the round-trip claim). -/
def demo7_state : Ptr_stack :=
  match stack_new_ptr true (create_stack 30) (some [7, 8]) 2 with
  | .ok (_, s1) => s1
  | .error _ => create_stack 30

/-- A minimal well-formed registry value that is full (`length == capacity
== 0`) yet has an entry slot, so a registration on it runs to completion
without touching memory out of bounds (a caller assembling the public
structs by hand can hold such a value; the growth arithmetic under test
does not depend on it). -/
def growth_overflow_stack : Ptr_stack :=
  { arena := create_arena 0,
    ptr_list := [{ ptr := none, size := 0, dealloc := .null }],
    length := 0,
    capacity := 0 }

/-- Arena capacity after `stack_new_ptr(stack, NULL, 2^63)` on
`growth_overflow_stack` with the realloc succeeding. -/
def growth_overflow_capacity : Option Nat :=
  match stack_new_ptr true growth_overflow_stack none (2 ^ 63) with
  | .ok (_, s1) => some s1.arena.capacity
  | .error _ => none

/-- Claim C10: `arena_alloc` called on a null arena reference returns the
empty slice (size 0, NULL block) and never touches the arena, for every
requested size. -/
theorem arena_alloc_null_total (size : Nat) :
    arena_alloc none size = ({ size := 0, block := none }, none) := rfl

/-- Claim C5 (code bug): the guard `actual_size + size > capacity` is a
wrapping `size_t` sum, so an over-huge request bypasses it. On an arena
with capacity 19 and `used = 10` (reachable as `create_arena(19)` followed
by a 10-byte allocation) the request `size = 2^64 - 1` has
`used + size > capacity` mathematically, yet the sum wraps to 9, the check
passes, a non-empty slice at offset 10 is returned and `used` is rewound
to 9 - where the claim demands failure with the empty slice and the arena
unchanged. (The `size == 0` branch and the in-bounds success branch do
behave as the claim says; the failure branch does not.) -/
theorem arena_alloc_overflow_bypass :
    arena_allocA
        { capacity := 19, actual_size := 10, block := List.replicate 19 0 }
        (2 ^ 64 - 1)
      = ({ size := 2 ^ 64 - 1, block := some 10 },
         { capacity := 19, actual_size := 9, block := List.replicate 19 0 })
    ∧ 10 + (2 ^ 64 - 1) > 19 := ⟨rfl, by decide⟩

/-- Claim C3 (code bug): growing a fresh arena of capacity 10 by 5 sets the
`capacity` field to 15 but reallocates the heap buffer to
`actual_size + extra = 5` bytes, so the buffer's length does not equal the
new capacity (the source passes `actual_size + extra_capacity` to
`realloc` instead of `capacity + extra_capacity`). -/
theorem arena_realloc_truncates_block :
    (arena_realloc true (create_arena 10) 5).2.capacity = 15
    ∧ (arena_realloc true (create_arena 10) 5).2.block.length = 5 := ⟨rfl, rfl⟩

/-- Claim C9 counterexample: `dyn_ptr_insert_deallocator` on a null entry
reference performs the store `dyn_ptr->dealloc = dealloc` with no null
check, a null dereference (undefined behavior) rather than a clean
rejection. -/
theorem dyn_ptr_insert_deallocator_null_ub :
    dyn_ptr_insert_deallocator none Dealloc.null = .error .nullDeref := rfl

/-- Claim C9 (amended): on every non-null entry reference,
`dyn_ptr_insert_deallocator` replaces exactly the destructor capability -
`ptr` and `size` are untouched, no allocation happens, and the call cannot
fail; a null entry reference is not checked and is undefined behavior. -/
theorem dyn_ptr_insert_deallocator_spec (d : Dyn_ptr) (f : Dealloc) :
    dyn_ptr_insert_deallocator (some d) f
      = .ok { ptr := d.ptr, size := d.size, dealloc := f } := rfl

/-- Claim C2 (code bug): on a fresh registry of capacity 100,
`stack_new_ptr(stack, NULL, 5)` does return the failure value NULL, but it
increments `length` to 1 and leaves the half-initialized entry
`{ ptr = NULL, size = 5 }` visible at index 0. -/
theorem stack_new_ptr_rejects_but_mutates :
    null_register_result
      = (none, 1, some { ptr := none, size := 5, dealloc := Dealloc.null }) := rfl

/-- Claim C1 (code bug): registering into a registry whose `length` has
reached `capacity` never grows `ptr_list` - only the arena is reallocated -
so the store `ptr_list[length] = *dyn_ptr` lands outside the entry array.
Concretely, on a registry of capacity 0 the first registration reaches that
out-of-bounds store (the entry array still has its original 0 slots when
the append at index 0 is attempted). -/
theorem stack_new_ptr_oob_at_full_capacity :
    stack_new_ptr true (create_stack 0) (some [5]) 1 = .error .oobWrite
    ∧ (create_stack 0).ptr_list.length = 0
    ∧ (create_stack 0).capacity = 0 := ⟨rfl, rfl, rfl⟩

/-- Claim C4 (code bug): the positive part of the claim holds at these
sizes - on a fresh capacity-10 arena the sequence `[3, 4]` succeeds at
offsets 0 and 3 leaving `used = 7` - but the claim's failure conjunct is
violated: the subsequent request of `2^64 - 4` bytes (far beyond the
remaining 3) wraps the guard's `size_t` sum to 3, passes the check,
returns a non-empty slice at offset 7 and sets `used` back to 3, where the
claim demands failure without mutating `used`. -/
theorem arena_alloc_sequence_overflow :
    alloc_results (create_arena 10) [3, 4]
      = ([{ size := 3, block := some 0 }, { size := 4, block := some 3 }],
         { capacity := 10, actual_size := 7, block := List.replicate 10 0 })
    ∧ arena_allocA
        { capacity := 10, actual_size := 7, block := List.replicate 10 0 }
        (2 ^ 64 - 4)
      = ({ size := 2 ^ 64 - 4, block := some 7 },
         { capacity := 10, actual_size := 3, block := List.replicate 10 0 })
    ∧ 10 - 7 < 2 ^ 64 - 4 := ⟨rfl, rfl, by decide⟩

/-- Helper: the destructor loop of `stack_free` visits exactly the first
`n` entries, in index order, when they are inside the allocated array. -/
theorem dcalls_eq (pl : List Dyn_ptr) : ∀ n, n ≤ pl.length →
    dcalls pl n = .ok ((pl.take n).map TEvent.dcall) := by
  intro n
  induction n with
  | zero => intro _; simp [dcalls]
  | succ n ih =>
    intro h
    have hn : n < pl.length := by omega
    have h1 : dcalls pl n = .ok ((pl.take n).map TEvent.dcall) := ih (by omega)
    have h2 : pl[n]? = some pl[n] := List.getElem?_eq_getElem hn
    unfold dcalls
    rw [h1, h2]
    rw [List.take_succ, h2]
    simp only [Option.toList_some, List.map_append, List.map_cons, List.map_nil]

/-- Claim C6: teardown invokes `ptr_list[i].dealloc(&ptr_list[i])` for
`i = 0 .. length-1` in exactly registration order and only afterwards
frees the entry storage and destroys the arena; in particular the spec's
three-entry scenario with index-logging destructors produces the log
`[0, 1, 2]`. -/
theorem stack_free_order (s : Ptr_stack) (h : s.length ≤ s.ptr_list.length) :
    stack_free s
      = .ok ((s.ptr_list.take s.length).map TEvent.dcall
          ++ [TEvent.free_ptr_list, TEvent.free_arena, TEvent.free_stack])
    ∧ demo_log = some (.ok [0, 1, 2]) := by
  refine ⟨?_, rfl⟩
  unfold stack_free
  rw [dcalls_eq s.ptr_list s.length h]

/-- Witness for `stack_free_order` at the empty registry of capacity 0. -/
theorem stack_free_order_witness :
    (create_stack 0).length ≤ (create_stack 0).ptr_list.length
    ∧ (stack_free (create_stack 0)
        = .ok (((create_stack 0).ptr_list.take (create_stack 0).length).map TEvent.dcall
            ++ [TEvent.free_ptr_list, TEvent.free_arena, TEvent.free_stack])
      ∧ demo_log = some (.ok [0, 1, 2])) :=
  ⟨by decide, stack_free_order (create_stack 0) (by decide)⟩

/-- Claim C8 counterexample: the source computes `growth = dataSize * 2`
in `size_t`, so at `dataSize = 2^63` the product wraps to 0 and is clamped
to the 1 KiB minimum. On a full registry (`length == capacity`) a call
with that size grows the arena capacity by 1024 bytes, not by
`max(2 * 2^63, 1024) = 2^64` as the claim asserts. -/
theorem stack_new_ptr_growth_overflow :
    growth_overflow_stack.length = growth_overflow_stack.capacity
    ∧ growth_overflow_capacity = some 1024
    ∧ growth_overflow_stack.arena.capacity + max (2 ^ 63 * 2) 1024 = 2 ^ 64
    ∧ (1024 : Nat) ≠ 2 ^ 64 := ⟨rfl, rfl, by decide, by decide⟩

/-- Claim C8 (amended): when `stack_new_ptr` finds `length == capacity`, a
failed arena growth aborts the call returning NULL with the registry
unchanged; and provided the doubled size does not overflow `size_t`
(`2 * dataSize < 2^64`) and the grown capacity stays representable, a
successful growth reallocates the arena by exactly
`max(2 * dataSize, 1024)` bytes of capacity before the entry allocation
proceeds (the remaining work runs on the grown arena). At
`2 * dataSize >= 2^64` the source wraps the product and clamps the growth
to at least 1024 instead. -/
theorem stack_new_ptr_growth_policy (s : Ptr_stack) (data : Option (List Nat))
    (n : Nat) (h : s.length = s.capacity) (hsz : n * 2 < 2 ^ 64)
    (hgrown : s.arena.capacity + max (n * 2) 1024 < 2 ^ 64) :
    stack_new_ptr false s data n = .ok (none, s)
    ∧ stack_new_ptr true s data n
        = stack_new_ptr_rest
            { s with arena := (arena_realloc true s.arena (max (n * 2) 1024)).2 }
            data n
    ∧ (arena_realloc true s.arena (max (n * 2) 1024)).2.capacity
        = s.arena.capacity + max (n * 2) 1024 := by
  have hcap : s.capacity ≤ s.length := by omega
  have hm : n * 2 % size_t_mod = n * 2 :=
    Nat.mod_eq_of_lt (by simpa [size_t_mod] using hsz)
  have hmax : (if n * 2 % size_t_mod < 1024 then 1024 else n * 2 % size_t_mod)
      = max (n * 2) 1024 := by
    rw [hm]
    rcases Nat.lt_or_ge (n * 2) 1024 with hlt | hge
    · rw [if_pos hlt, max_eq_right (Nat.le_of_lt hlt)]
    · rw [if_neg (by omega), max_eq_left hge]
  refine ⟨?_, ?_, ?_⟩
  · simp [stack_new_ptr, arena_realloc, hcap]
  · simp [stack_new_ptr, arena_realloc, hcap, hmax]
  · simp [arena_realloc,
      Nat.mod_eq_of_lt (show s.arena.capacity + max (n * 2) 1024 < size_t_mod by
        simpa [size_t_mod] using hgrown)]

/-- Witness for `stack_new_ptr_growth_policy` at the full (capacity-0)
registry with a 1-byte payload: the growth quantum is 1024 and its
arithmetic is far from overflowing. -/
theorem stack_new_ptr_growth_policy_witness :
    (create_stack 0).length = (create_stack 0).capacity
    ∧ 1 * 2 < 2 ^ 64
    ∧ (create_stack 0).arena.capacity + max (1 * 2) 1024 < 2 ^ 64
    ∧ stack_new_ptr false (create_stack 0) (some [1]) 1 = .ok (none, create_stack 0)
    ∧ (arena_realloc true (create_stack 0).arena (max (1 * 2) 1024)).2.capacity
        = (create_stack 0).arena.capacity + max (1 * 2) 1024 :=
  ⟨rfl, by decide, by decide,
   (stack_new_ptr_growth_policy (create_stack 0) (some [1]) 1 rfl (by decide)
     (by decide)).1,
   (stack_new_ptr_growth_policy (create_stack 0) (some [1]) 1 rfl (by decide)
     (by decide)).2.2⟩

/-- Helper: bytes stored by an in-bounds `memcpy` read back unchanged at
the same offset. -/
theorem writeBytes_read (block bs : List Nat) (off : Nat) (out : List Nat)
    (h : writeBytes block off bs = some out) :
    (out.drop off).take bs.length = bs := by
  unfold writeBytes at h
  split at h
  · rename_i hle
    injection h with h
    subst h
    have hlen : (block.take off).length = off := by
      rw [List.length_take]; omega
    rw [List.append_assoc, List.drop_left' hlen, List.take_left' rfl]
  · exact absurd h (by simp)

/-- Helper: a bump allocation that returned a non-null pointer was served
at the old `used` offset with `used` advanced by the requested size. -/
theorem arena_allocA_success (a : Arena) (n : Nat) (off : Nat)
    (h : (arena_allocA a n).1.block = some off) :
    arena_allocA a n
      = ({ size := n, block := some a.actual_size },
         { a with actual_size := (a.actual_size + n) % size_t_mod })
    ∧ off = a.actual_size := by
  unfold arena_allocA at h ⊢
  split at h
  · simp at h
  · split at h
    · simp at h
    · rename_i h1 h2
      refine ⟨?_, ?_⟩
      · rw [if_neg h1, if_neg h2]
      have h' : some a.actual_size = some off := h
      injection h' with h''
      exact h''.symm

/-- Helper: when `dyn_ptr_alloc` on a record with a NULL payload pointer
returns a record whose pointer is non-null, the call took its success path:
the payload was bump-allocated at the old `used` offset, the caller's bytes
were copied there in bounds, and the record's `ptr`/`size` were set while
its destructor was left alone. -/
theorem dyn_ptr_alloc_success (a : Arena) (d : Dyn_ptr) (bytes : List Nat)
    (n : Nat) (a2 : Arena) (d2 : Dyn_ptr)
    (hd : d.ptr = none)
    (h : dyn_ptr_alloc a d (some bytes) n = .ok (a2, d2))
    (hp : d2.ptr ≠ none) :
    n ≤ bytes.length
    ∧ d2 = { ptr := some a.actual_size, size := n, dealloc := d.dealloc }
    ∧ ∃ blk, writeBytes a.block a.actual_size (bytes.take n) = some blk
        ∧ a2 = { capacity := a.capacity,
                 actual_size := (a.actual_size + n) % size_t_mod,
                 block := blk } := by
  simp only [dyn_ptr_alloc] at h
  split at h
  · simp only [Except.ok.injEq, Prod.mk.injEq] at h
    rw [← h.2] at hp
    exact absurd hd hp
  · rename_i hn
    split at h
    · simp only [Except.ok.injEq, Prod.mk.injEq] at h
      rw [← h.2] at hp
      exact absurd hd hp
    · rename_i off heq
      obtain ⟨hsucc, hoff⟩ := arena_allocA_success a n off heq
      subst hoff
      split at h
      · rename_i hsrc
        split at h
        · simp at h
        · rename_i blk hw
          simp only [Except.ok.injEq, Prod.mk.injEq] at h
          obtain ⟨ha2, hd2⟩ := h
          rw [hsucc] at hw
          refine ⟨hsrc, ?_, blk, ?_, ?_⟩
          · rw [← hd2]
          · exact hw
          · rw [← ha2, hsucc]
      · simp at h

/-- Helper: the post-growth part of `stack_new_ptr`, on success, stores an
entry whose `size` is the requested size and whose payload bytes read back
as the caller's bytes. -/
theorem stack_new_ptr_rest_round_trip (s1 : Ptr_stack) (bytes : List Nat)
    (n i : Nat) (s' : Ptr_stack)
    (hlen : bytes.length = n)
    (h : stack_new_ptr_rest s1 (some bytes) n = .ok (some i, s')) :
    (s'.ptr_list[i]?).map Dyn_ptr.size = some n
    ∧ entry_bytes s' i = some bytes := by
  simp only [stack_new_ptr_rest] at h
  split at h
  · simp at h
  · rename_i off0 heq0
    split at h
    · rename_i hb
      split at h
      · simp at h
      · rename_i arena2 record1 hdp
        split at h
        · simp at h
        · rename_i hp
          simp only [Except.ok.injEq, Prod.mk.injEq, Option.some.injEq] at h
          obtain ⟨hi, hs⟩ := h
          subst hi
          subst hs
          obtain ⟨hsrc, hd2, blk, hw, ha2⟩ :=
            dyn_ptr_alloc_success (arena_allocA s1.arena sizeof_Dyn_ptr).2
              { ptr := none, size := n, dealloc := Dealloc.null } bytes n
              arena2 record1 rfl hdp hp
          have hread := writeBytes_read _ (bytes.take n) _ blk hw
          have htk : (bytes.take n).length = n := by
            rw [List.length_take]; omega
          have hbytes : bytes.take n = bytes := by
            rw [← hlen, List.take_length]
          constructor
          · dsimp only
            rw [List.set_set, List.getElem?_set_self hb, hd2]
            rfl
          · simp only [entry_bytes]
            rw [List.set_set, List.getElem?_set_self hb, hd2]
            dsimp only
            rw [ha2]
            dsimp only
            rw [← htk, hread, hbytes]
    · simp at h

/-- Claim C7: whenever `stack_new_ptr` succeeds on a non-null `data` buffer
of `size > 0` bytes, reading the returned entry back immediately yields
`size` equal to the request and payload bytes identical to the input, for
every payload size (the growth quantum plays no role in the proof, so
sizes above 1024 are covered by the same quantification). -/
theorem stack_round_trip (g : Bool) (s : Ptr_stack) (bytes : List Nat)
    (n i : Nat) (s' : Ptr_stack)
    (hn : 0 < n) (hlen : bytes.length = n)
    (h : stack_new_ptr g s (some bytes) n = .ok (some i, s')) :
    (s'.ptr_list[i]?).map Dyn_ptr.size = some n
    ∧ entry_bytes s' i = some bytes := by
  simp only [stack_new_ptr] at h
  split at h
  · split at h
    · simp at h
    · exact stack_new_ptr_rest_round_trip _ bytes n i s' hlen h
  · exact stack_new_ptr_rest_round_trip _ bytes n i s' hlen h

/-- Witness for `stack_round_trip`: registering the 2-byte payload `[7, 8]`
into a fresh registry of capacity 30 succeeds at index 0 and reads back
size 2 and bytes `[7, 8]`. -/
theorem stack_round_trip_witness :
    0 < 2 ∧ ([7, 8] : List Nat).length = 2
    ∧ ((demo7_state.ptr_list[0]?).map Dyn_ptr.size = some 2
        ∧ entry_bytes demo7_state 0 = some [7, 8]) :=
  ⟨by decide, rfl,
   stack_round_trip true (create_stack 30) [7, 8] 2 0 demo7_state
     (by decide) rfl rfl⟩
